import Mathlib

/-!
Verification of the Solana AMM bot scripts: a shallow embedding of the three
source files (the token-creation script, the wallet/native-transfer script and
the token-transfer script) together with proofs about the transactions they
build.  Blockchain state reached over RPC (account existence, mint decimals,
token balances, wallet balances, rent) is modelled as an explicit environment
argument; the ordered instruction list of the transaction under construction
and the sequence of RPC side effects are returned explicitly.  JavaScript
numbers are modelled as exact rationals, except where a claim is specifically
about double-precision rounding of large integer products, which is modelled
by rounding to the nearest representable 53-bit significand.
-/

/-- On-chain addresses.  Wallet and mint addresses are abstract seeds;
associated token addresses are the deterministic derivation from (mint, owner)
performed by getAssociatedTokenAddress, and metadata addresses the derivation
from the mint performed with findProgramAddressSync; both derivations are
collision-free, which the constructor form reflects.  Program ids are the
base-58 constants from the source. -/
inductive Addr where
  | wallet (seed : ℕ)
  | mintAcct (seed : ℕ)
  | ata (mint owner : Addr)
  | metadataPda (mint : Addr)
  | program (id : String)
  | pubkeyBytes (bytes : List ℕ)
deriving DecidableEq

/-- The SPL token program id, as referenced by the source through
TOKEN_PROGRAM_ID. -/
def TOKEN_PROGRAM_ID : Addr := Addr.program "TokenkegQfeZyiNwAJbNbGKPFXCWuBvf9Ss623VQ5DA"

/-- Mint account size in bytes (the MINT_SIZE constant of spl-token). -/
def MINT_SIZE : ℕ := 82

/-- The instructions the scripts append to a transaction.  Fields record the
arguments the source passes; constant program-id arguments that are fixed in
every call site (TOKEN_PROGRAM_ID, ASSOCIATED_TOKEN_PROGRAM_ID) are kept only
where an instruction is parameterised by them (createAccount assigns the new
account to a program). -/
inductive Instr where
  | setComputeUnitLimit (units : ℕ)
  | setComputeUnitPrice (microLamports : ℕ)
  | createAccount (payer newAccount : Addr) (space lamports : ℕ) (owner : Addr)
  | initializeMint (mint : Addr) (decimals : ℕ) (mintAuthority freezeAuthority : Addr)
  | createAssociatedTokenAccount (payer ataAddr ownerAddr mint : Addr)
  | mintTo (mint dest authority : Addr) (amount : ℕ)
  | createMetadataAccountV3 (metadata mint mintAuthority payer updateAuthority : Addr)
  | transferChecked (source mint dest owner : Addr) (amount : ℤ) (decimals : ℕ)
  | systemTransfer (source dest : Addr) (lamports : ℚ)
deriving DecidableEq

/-- Rounding of a nonnegative integer product to the nearest IEEE-754 double
(53-bit significand, round to nearest, ties to even), at the exponent
determined by the magnitude of the value.  Used to model a JavaScript
multiplication of two exactly representable integer doubles. -/
def roundAt (n e : ℕ) : ℕ :=
  if n % 2 ^ e < 2 ^ (e - 1) then n / 2 ^ e * 2 ^ e
  else if 2 ^ (e - 1) < n % 2 ^ e then (n / 2 ^ e + 1) * 2 ^ e
  else (if (n / 2 ^ e) % 2 = 0 then n / 2 ^ e else n / 2 ^ e + 1) * 2 ^ e

/-- Round a natural number to the nearest representable double value.  Values
up to 2^53 are exact; beyond that the low bits are rounded away. -/
def roundDouble (n : ℕ) : ℕ :=
  if n ≤ 2 ^ 53 then n
  else roundAt n (n.log2 - 52)

/-- Models the JavaScript expression a * Math.pow(10, d) for natural a and d,
as used for the initial-supply computation: both factors are exact doubles for
a ≤ 2^53 and d ≤ 22, and the double multiplication rounds the exact product
once to the nearest representable double. -/
def jsMulPow10 (a d : ℕ) : ℕ := roundDouble (a * 10 ^ d)

/-- Models JavaScript Math.round on an exact rational value:
the floor of x + 1/2 (round half toward positive infinity). -/
def jsRound (q : ℚ) : ℤ := ⌊q + 1 / 2⌋

/-- Value of a hexadecimal digit, as parseInt with radix 16 accepts it
(both lower and upper case); none for a non-hex character. -/
def hexDigitVal (c : Char) : Option ℕ :=
  if ('0' ≤ c ∧ c ≤ '9') then some (c.toNat - 48)
  else if ('a' ≤ c ∧ c ≤ 'f') then some (c.toNat - 97 + 10)
  else if ('A' ≤ c ∧ c ≤ 'F') then some (c.toNat - 65 + 10)
  else none

/-- Chunking performed by the regular expression match with pattern .{1,2}:
consecutive two-character chunks, with a trailing one-character chunk when the
length is odd. -/
def hexPairs : List Char → List (List Char)
  | [] => []
  | [c] => [[c]]
  | c1 :: c2 :: rest => [c1, c2] :: hexPairs rest

/-- parseInt(chunk, 16) on one chunk; none marks the NaN outcome for a chunk
containing a non-hex character. -/
def parseHexByte : List Char → Option ℕ
  | [c1, c2] => do
      let v1 ← hexDigitVal c1
      let v2 ← hexDigitVal c2
      pure (16 * v1 + v2)
  | [c] => hexDigitVal c
  | _ => none

/-- Decoding of every chunk in sequence; fails when any chunk is not hex. -/
def decodePairs : List (List Char) → Option (List ℕ)
  | [] => some []
  | p :: rest => do
      let b ← parseHexByte p
      let bs ← decodePairs rest
      pure (b :: bs)

/-- The hex-string decoding of the token-creation script:
privateKey.match(/.{1,2}/g).map(byte => parseInt(byte, 16)), producing the
byte array handed to Keypair.fromSecretKey. -/
def hexDecode (s : String) : Option (List ℕ) := decodePairs (hexPairs s.data)

/-- Hexadecimal digit character for a value below 16, lower case, as
Buffer.toString with encoding hex emits it. -/
def hexDigitChar (n : ℕ) : Char :=
  if n < 10 then Char.ofNat (48 + n) else Char.ofNat (87 + n)

/-- Two lower-case hex characters per byte, in order. -/
def hexEncodeBytes : List ℕ → List Char
  | [] => []
  | b :: bs => hexDigitChar (b / 16) :: hexDigitChar (b % 16) :: hexEncodeBytes bs

/-- The hex encoding used by createWalletKeypair:
Buffer.from(keypair.secretKey).toString(hex). -/
def hexEncode (bs : List ℕ) : String := String.mk (hexEncodeBytes bs)

/-- The sixteen characters a lower-case hex string is composed of. -/
def lowerHexChars : List Char := "0123456789abcdef".data

/-- A character of a lower-case hexadecimal string. -/
def isLowerHex (c : Char) : Prop := c ∈ lowerHexChars

instance (c : Char) : Decidable (isLowerHex c) := by
  unfold isLowerHex
  infer_instance

/-- Models Keypair.fromSecretKey: a 64-byte ed25519 secret key is accepted and
its public half is the trailing 32 bytes of the expanded secret key; any other
length is rejected.  (The library additionally checks that the trailing bytes
are consistent with the seed; no claim depends on that check.) -/
def fromSecretKey (s : List ℕ) : Option (List ℕ × List ℕ) :=
  if s.length = 64 then some (s, s.drop 32) else none

/-- The private-key parameter of createTokenWithMetadata: a hex string is
decoded with hexDecode, a byte array is used as is. -/
def decodePrivateKey : String ⊕ List ℕ → Option (List ℕ)
  | Sum.inl s => hexDecode s
  | Sum.inr l => some l

/-- Chain state read over RPC by the token-transfer script.  accountExists is
the truthiness of getAccountInfo, mintDecimals the decimals field of getMint,
and tokenBalance the result of getTokenAccountBalance, which can fail (the
script catches that failure). -/
structure TokenEnv where
  accountExists : Addr → Bool
  mintDecimals : Addr → ℕ
  tokenBalance : Addr → Except Unit ℕ

/-- RPC side effects of the token-transfer script, in issue order. -/
inductive Effect where
  | getAccountInfo (a : Addr)
  | getMint (a : Addr)
  | getTokenBalance (a : Addr)
  | getLatestBlockhash
  | submit
deriving DecidableEq

/-- Failure of the token-transfer script before submission. -/
inductive TransferError where
  | insufficientBalance
deriving DecidableEq

/-- Shallow embedding of transferToken: derive both associated token
addresses, append a creation instruction for each one whose account the
existence query reports absent, fetch the mint decimals, convert the
caller-supplied human-readable amount with Math.round(amount * 10^decimals),
read the source balance (defaulting to zero when the lookup fails), fail with
the insufficient-balance error when the balance is below the requested amount,
and otherwise append the checked-transfer instruction and submit.  Returns the
RPC effect trace and either the error or the built instruction list. -/
def transferToken (env : TokenEnv) (sender recipient mintAddr : Addr) (amount : ℚ) :
    List Effect × Except TransferError (List Instr) :=
  let sourceAta := Addr.ata mintAddr sender
  let destAta := Addr.ata mintAddr recipient
  let tx1 : List Instr :=
    if env.accountExists sourceAta then []
    else [Instr.createAssociatedTokenAccount sender sourceAta sender mintAddr]
  let tx2 : List Instr := tx1 ++
    (if env.accountExists destAta then []
     else [Instr.createAssociatedTokenAccount sender destAta recipient mintAddr])
  let decimals := env.mintDecimals mintAddr
  let amountInSmallestUnits : ℤ := jsRound (amount * 10 ^ decimals)
  let haveBalance : ℤ :=
    match env.tokenBalance sourceAta with
    | Except.ok n => (n : ℤ)
    | Except.error _ => 0
  let effects := [Effect.getAccountInfo sourceAta, Effect.getAccountInfo destAta,
    Effect.getMint mintAddr, Effect.getTokenBalance sourceAta]
  if haveBalance < amountInSmallestUnits then
    (effects, Except.error TransferError.insufficientBalance)
  else
    (effects ++ [Effect.getLatestBlockhash, Effect.submit],
     Except.ok (tx2 ++ [Instr.transferChecked sourceAta mintAddr destAta sender
       amountInSmallestUnits decimals]))

/-- Whether an instruction creates the associated token account a. -/
def isCreateFor (a : Addr) : Instr → Bool
  | Instr.createAssociatedTokenAccount _ x _ _ => x = a
  | _ => false

/-- Number of creation instructions for the associated token account a in a
built instruction list. -/
def countCreateFor (a : Addr) (l : List Instr) : ℕ := l.countP (isCreateFor a)

/-- Whether an instruction is an associated-token-account creation. -/
def isAtaCreate : Instr → Bool
  | Instr.createAssociatedTokenAccount _ _ _ _ => true
  | _ => false

/-- Every instruction of the list is an associated-account creation. -/
def allAtaCreate (l : List Instr) : Bool := l.all isAtaCreate

/-- The instruction list of a successful build, the empty list otherwise. -/
def okInstrs : List Effect × Except TransferError (List Instr) → List Instr
  | (_, Except.ok l) => l
  | (_, Except.error _) => []

/-- Chain state read by the native-coin transfer script: the lamport balance
returned by getBalance. -/
structure SolEnv where
  balance : Addr → ℕ

/-- RPC side effects of the native-coin transfer script, in issue order. -/
inductive SolEffect where
  | getBalance (a : Addr)
  | getLatestBlockhash
  | submit
deriving DecidableEq

/-- Failure of the native-coin transfer script before submission. -/
inductive SolError where
  | insufficientBalance
deriving DecidableEq

/-- Shallow embedding of transferSOL: fetch the sender balance, convert it to
whole coins with the 10^9 divisor, fail with the insufficient-balance error
when it is below the requested amount, and otherwise build a transaction
holding the single system transfer instruction with lamports equal to
amountSOL * 10^9, and submit it. -/
def transferSOL (env : SolEnv) (sender recipient : Addr) (amountSOL : ℚ) :
    List SolEffect × Except SolError (List Instr) :=
  let balance := env.balance sender
  let balanceInSOL : ℚ := (balance : ℚ) / 1000000000
  if balanceInSOL < amountSOL then
    ([SolEffect.getBalance sender], Except.error SolError.insufficientBalance)
  else
    ([SolEffect.getBalance sender, SolEffect.getLatestBlockhash, SolEffect.submit],
     Except.ok [Instr.systemTransfer sender recipient (amountSOL * 1000000000)])

/-- Chain state read by the token-creation script: the wallet balance (used
only for a console warning), the rent-exempt minimum for a mint account, and
the seed of the freshly generated mint keypair. -/
structure CreateEnv where
  walletBalance : ℕ
  rentExemptBalance : ℕ
  mintSeed : ℕ

/-- The TOKEN_CONFIG entries of the configuration module that the
token-creation script reads. -/
structure TokenConfig where
  decimals : ℕ
  initialSupply : ℕ

/-- The runtime error terminating the token-creation script: referenceError
is the ReferenceError raised by evaluating an unbound identifier, keyError any
error thrown while decoding the private key. -/
inductive JsError where
  | referenceError
  | keyError
deriving DecidableEq

/-- Result object of createTokenWithMetadata: the success flag, the error (if
any), the instructions appended to the transaction object before the run
ended, and whether sendAndConfirmTransaction was reached. -/
structure CreateResult where
  success : Bool
  error : Option JsError
  instructions : List Instr
  submitted : Bool
deriving DecidableEq

/-- The identifiers bound at module scope in the token-creation script: the
destructured requires of the web3 and spl-token packages, the whole-module
requires, the top-level constants and the declared functions.  Transcribed
from the source file. -/
def part000ModuleScope : List String :=
  ["Connection", "Keypair", "Transaction", "SystemProgram", "LAMPORTS_PER_SOL",
   "sendAndConfirmTransaction", "ComputeBudgetProgram", "PublicKey",
   "TOKEN_PROGRAM_ID", "ASSOCIATED_TOKEN_PROGRAM_ID",
   "createInitializeMintInstruction", "createAssociatedTokenAccountInstruction",
   "createMintToInstruction", "getAssociatedTokenAddress", "MINT_SIZE",
   "getMinimumBalanceForRentExemptMint", "mplTokenMetadata", "fs", "config",
   "TOKEN_METADATA_PROGRAM_ID", "rpcEndpoint", "TOKEN_METADATA", "TOKEN_CONFIG",
   "createTokenWithMetadata", "main"]

/-- The transaction-building phase of createTokenWithMetadata: the seven
transaction.add calls in source order.  The seventh add evaluates the
identifier createCreateMetadataAccountV3Instruction; when that identifier is
not in module scope the evaluation raises a ReferenceError, so the result is
the instructions appended so far paired with the error; otherwise all seven
instructions are built.  The mint amount is the double-precision product of
initialSupply and 10^decimals. -/
def createTokenInstructions (env : CreateEnv) (cfg : TokenConfig) (wallet : Addr) :
    List Instr × Option JsError :=
  let mintAddr := Addr.mintAcct env.mintSeed
  let ataAddr := Addr.ata mintAddr wallet
  let metadataAddr := Addr.metadataPda mintAddr
  let six : List Instr :=
    [Instr.setComputeUnitLimit 250000,
     Instr.setComputeUnitPrice 200000,
     Instr.createAccount wallet mintAddr MINT_SIZE env.rentExemptBalance TOKEN_PROGRAM_ID,
     Instr.initializeMint mintAddr cfg.decimals wallet wallet,
     Instr.createAssociatedTokenAccount wallet ataAddr wallet mintAddr,
     Instr.mintTo mintAddr ataAddr wallet (jsMulPow10 cfg.initialSupply cfg.decimals)]
  if part000ModuleScope.contains "createCreateMetadataAccountV3Instruction" then
    (six ++ [Instr.createMetadataAccountV3 metadataAddr mintAddr wallet wallet wallet], none)
  else
    (six, some JsError.referenceError)

/-- Shallow embedding of createTokenWithMetadata: decode the private key,
derive the wallet from it, build the transaction with createTokenInstructions,
and submit only when every instruction was built.  The surrounding catch turns
any raised error into a result object with success set to false. -/
def createTokenWithMetadata (env : CreateEnv) (cfg : TokenConfig)
    (privateKey : String ⊕ List ℕ) : CreateResult :=
  match (decodePrivateKey privateKey).bind fromSecretKey with
  | none => ⟨false, some JsError.keyError, [], false⟩
  | some kp =>
      let wallet := Addr.pubkeyBytes kp.2
      let built := createTokenInstructions env cfg wallet
      match built.2 with
      | some e => ⟨false, some e, built.1, false⟩
      | none => ⟨true, none, built.1, true⟩

/-- The double rounding is the identity on any multiple of 2^e rounded at
exponent e. -/
theorem roundAt_eq_self (n e : ℕ) (h : 2 ^ e ∣ n) : roundAt n e = n := by
  obtain ⟨k, hk⟩ := h
  subst hk
  unfold roundAt
  rw [Nat.mul_mod_right, if_pos (Nat.two_pow_pos _),
    Nat.mul_div_cancel_left k (Nat.two_pow_pos e), mul_comm]

/-- The double-precision product a * 10^d is exact whenever the odd part
a * 5^d of the product fits in the 53-bit significand. -/
theorem jsMulPow10_exact (a d : ℕ) (h : a * 5 ^ d ≤ 2 ^ 53) :
    jsMulPow10 a d = a * 10 ^ d := by
  unfold jsMulPow10 roundDouble
  by_cases hle : a * 10 ^ d ≤ 2 ^ 53
  · rw [if_pos hle]
  · rw [if_neg hle]
    push_neg at hle
    set n := a * 10 ^ d with hn
    have hn0 : n ≠ 0 := by
      have : (0:ℕ) < 2 ^ 53 := Nat.two_pow_pos 53
      omega
    have hfac : n = a * 5 ^ d * 2 ^ d := by
      rw [hn, show (10:ℕ) = 2 * 5 from rfl, mul_pow]; ring
    have hub : n ≤ 2 ^ (53 + d) := by
      rw [hfac, pow_add]
      exact Nat.mul_le_mul_right _ h
    have hlog_le : n.log2 ≤ 53 + d := by
      have h2 : n < 2 ^ (54 + d) := lt_of_le_of_lt hub
        (Nat.pow_lt_pow_right one_lt_two (by omega))
      have := (Nat.log2_lt hn0).mpr h2
      omega
    have hdvd : 2 ^ (n.log2 - 52) ∣ n := by
      rcases lt_or_ge n.log2 (53 + d) with hc | hc
      · have he : n.log2 - 52 ≤ d := by omega
        exact dvd_trans (pow_dvd_pow 2 he) (by rw [hfac]; exact Dvd.intro_left _ rfl)
      · have heq : n.log2 = 53 + d := le_antisymm hlog_le hc
        have hlb : 2 ^ (53 + d) ≤ n := heq ▸ Nat.log2_self_le hn0
        have hne : n = 2 ^ (53 + d) := le_antisymm hub hlb
        rw [heq, hne]
        exact pow_dvd_pow 2 (by omega)
    exact roundAt_eq_self n _ hdvd

/-- Binary logarithm of the exact product 10000000001 * 10^9. -/
theorem log2_counterexample_product : Nat.log2 10000000001000000000 = 63 := by
  have hn : (10000000001000000000 : ℕ) ≠ 0 := by norm_num
  refine le_antisymm ?_ ((Nat.le_log2 hn).mpr (by norm_num))
  have := (Nat.log2_lt hn).mpr (show (10000000001000000000:ℕ) < 2 ^ 64 by norm_num)
  omega

/-- Concrete chain state for witnesses: no associated account exists yet, the
mint has two decimals, and the source holds 1000 smallest units. -/
def envOkTransfer : TokenEnv :=
  TokenEnv.mk (fun _ => false) (fun _ => 2) (fun _ => Except.ok 1000)

/-- Concrete chain state in which no associated account exists, the mint has
zero decimals and the source holds 5 smallest units. -/
def envAllAbsent : TokenEnv :=
  TokenEnv.mk (fun _ => false) (fun _ => 0) (fun _ => Except.ok 5)

/-- Concrete chain state in which both associated accounts exist, the mint has
six decimals and the source balance is zero. -/
def envZeroBal : TokenEnv :=
  TokenEnv.mk (fun _ => true) (fun _ => 6) (fun _ => Except.ok 0)

/-- Concrete chain state in which both associated accounts exist, the mint has
six decimals and the balance lookup fails. -/
def envLookupFail : TokenEnv :=
  TokenEnv.mk (fun _ => true) (fun _ => 6) (fun _ => Except.error ())

/-- Concrete native-coin chain state: every wallet balance is zero. -/
def envSolEmpty : SolEnv := SolEnv.mk (fun _ => 0)

/-- Concrete native-coin chain state: every wallet holds 10^10 lamports. -/
def envSolRich : SolEnv := SolEnv.mk (fun _ => 10000000000)

/-- The 128-character lower-case hex private key that appears in the source's
test harness. -/
def KEYHEX : String :=
  "1762a599b597f0c6b2cc0cac9fda0f8c6424abbd3fd0490790b0bbdc56f4cb8f1b178ca6215382b28196b363cc1081c9476c1215412fa451dcd14f30a6ebc711"

/-- The same key with the first letter digit written in upper case: a valid
even-length hex string of hex digits that decodes to an accepted 64-byte
secret key. -/
def KEYHEXUP : String :=
  "1762A599b597f0c6b2cc0cac9fda0f8c6424abbd3fd0490790b0bbdc56f4cb8f1b178ca6215382b28196b363cc1081c9476c1215412fa451dcd14f30a6ebc711"

/-- Computation of the token-creation build: the first six instructions are
appended in source order and the seventh raises, since the metadata
constructor identifier is not in module scope. -/
theorem createTokenInstructions_eq (env : CreateEnv) (cfg : TokenConfig) (wallet : Addr) :
    createTokenInstructions env cfg wallet =
      ([Instr.setComputeUnitLimit 250000,
        Instr.setComputeUnitPrice 200000,
        Instr.createAccount wallet (Addr.mintAcct env.mintSeed) MINT_SIZE
          env.rentExemptBalance TOKEN_PROGRAM_ID,
        Instr.initializeMint (Addr.mintAcct env.mintSeed) cfg.decimals wallet wallet,
        Instr.createAssociatedTokenAccount wallet
          (Addr.ata (Addr.mintAcct env.mintSeed) wallet) wallet (Addr.mintAcct env.mintSeed),
        Instr.mintTo (Addr.mintAcct env.mintSeed)
          (Addr.ata (Addr.mintAcct env.mintSeed) wallet) wallet
          (jsMulPow10 cfg.initialSupply cfg.decimals)],
       some JsError.referenceError) := by
  rfl

/-- Claim C1: the token-creation builder appends, in order, the compute-unit
limit, the compute-unit price, the mint-account creation with rent-exempt
funding, the mint initialisation with decimals and both authorities, the
creator's associated-token-account creation and the initial-supply mint - and
then aborts with a ReferenceError while building the metadata instruction,
because createCreateMetadataAccountV3Instruction is not bound in module scope.
Only six instructions are ever part of the transaction, not the seven the
claim states. -/
theorem createToken_builds_six_then_aborts (env : CreateEnv) (cfg : TokenConfig)
    (wallet : Addr) :
    createTokenInstructions env cfg wallet =
      ([Instr.setComputeUnitLimit 250000,
        Instr.setComputeUnitPrice 200000,
        Instr.createAccount wallet (Addr.mintAcct env.mintSeed) MINT_SIZE
          env.rentExemptBalance TOKEN_PROGRAM_ID,
        Instr.initializeMint (Addr.mintAcct env.mintSeed) cfg.decimals wallet wallet,
        Instr.createAssociatedTokenAccount wallet
          (Addr.ata (Addr.mintAcct env.mintSeed) wallet) wallet (Addr.mintAcct env.mintSeed),
        Instr.mintTo (Addr.mintAcct env.mintSeed)
          (Addr.ata (Addr.mintAcct env.mintSeed) wallet) wallet
          (jsMulPow10 cfg.initialSupply cfg.decimals)],
       some JsError.referenceError) := by
  exact createTokenInstructions_eq env cfg wallet

/-- Claim C10: for every input, createTokenWithMetadata returns a failure
result with success false, and the transaction is never submitted: the
metadata-instruction construction evaluates an identifier that is never
imported or defined in the module, so the success branch is unreachable. -/
theorem createTokenWithMetadata_never_succeeds (env : CreateEnv) (cfg : TokenConfig)
    (privateKey : String ⊕ List ℕ) :
    (createTokenWithMetadata env cfg privateKey).success = false ∧
    (createTokenWithMetadata env cfg privateKey).submitted = false := by
  unfold createTokenWithMetadata
  cases hdec : (decodePrivateKey privateKey).bind fromSecretKey with
  | none => exact ⟨rfl, rfl⟩
  | some kp => exact ⟨rfl, rfl⟩

/-- Claim C2 (amended): whenever the odd part initialSupply * 5^decimals of
the product fits in 53 bits - which holds for all decimal counts up to 9 with
supplies up to about 4.6 billion whole units - the amount in the mint
instruction built by the token-creation script equals
initialSupply * 10^decimals exactly. -/
theorem mintTo_amount_exact (env : CreateEnv) (cfg : TokenConfig) (wallet : Addr)
    (h : cfg.initialSupply * 5 ^ cfg.decimals ≤ 2 ^ 53) :
    (createTokenInstructions env cfg wallet).1[5]? =
      some (Instr.mintTo (Addr.mintAcct env.mintSeed)
        (Addr.ata (Addr.mintAcct env.mintSeed) wallet) wallet
        (cfg.initialSupply * 10 ^ cfg.decimals)) := by
  rw [createTokenInstructions_eq env cfg wallet]
  simp [jsMulPow10_exact cfg.initialSupply cfg.decimals h]

/-- Witness for claim C2: decimals 6 and initial supply 1000000 whole units
satisfy the significand bound, and the mint instruction amount is exactly
1000000000000 smallest units. -/
theorem mintTo_amount_exact_witness :
    (createTokenInstructions (CreateEnv.mk 0 1461600 0) (TokenConfig.mk 6 1000000)
        (Addr.wallet 0)).1[5]? =
      some (Instr.mintTo (Addr.mintAcct 0) (Addr.ata (Addr.mintAcct 0) (Addr.wallet 0))
        (Addr.wallet 0) 1000000000000) := by
  have h := mintTo_amount_exact (CreateEnv.mk 0 1461600 0) (TokenConfig.mk 6 1000000)
    (Addr.wallet 0) (by norm_num)
  rw [h]
  norm_num

/-- Counterexample for claim C2: for the whole-unit amount 10000000001 with 9
decimals the double-precision product differs from the exact integer value
10000000001 * 10^9 (the low bits are rounded away), so the computation is not
exact integer arithmetic for every amount. -/
theorem jsMulPow10_not_exact_counterexample :
    jsMulPow10 10000000001 9 ≠ 10000000001 * 10 ^ 9 := by
  have hprod : (10000000001 : ℕ) * 10 ^ 9 = 10000000001000000000 := by norm_num
  unfold jsMulPow10 roundDouble
  rw [hprod, if_neg (by norm_num), log2_counterexample_product]
  decide

/-- Claim C3: in every successful token-transfer build, the checked-transfer
instruction is the last instruction of the list, every instruction before it
is an associated-token-account creation (so any creation instructions present
precede the transfer), and the transfer carries both the converted
smallest-unit amount and the decimal count fetched from the mint account over
RPC, not a caller-supplied value. -/
theorem transferToken_creates_precede_transfer (env : TokenEnv)
    (sender recipient mintAddr : Addr) (amount : ℚ) (instrs : List Instr)
    (h : (transferToken env sender recipient mintAddr amount).2 = Except.ok instrs) :
    instrs.getLast? = some (Instr.transferChecked (Addr.ata mintAddr sender) mintAddr
      (Addr.ata mintAddr recipient) sender
      (jsRound (amount * 10 ^ env.mintDecimals mintAddr)) (env.mintDecimals mintAddr)) ∧
    allAtaCreate instrs.dropLast = true := by
  rw [transferToken] at h
  split at h
  · simp at h
  · rw [Except.ok.injEq] at h
    subst h
    refine ⟨List.getLast?_concat _, ?_⟩
    rw [List.dropLast_concat]
    unfold allAtaCreate
    rw [List.all_append]
    cases hb1 : env.accountExists (Addr.ata mintAddr sender) <;>
      cases hb2 : env.accountExists (Addr.ata mintAddr recipient) <;>
        simp [hb1, hb2, isAtaCreate]

/-- Claim C4 (amended): in every successful token-transfer build, when the
existence query reports the recipient's associated account present the list
contains no creation instruction for it; when it reports the account absent
and the sender and recipient differ, the list contains exactly one creation
instruction for it.  (When the sender transfers to themself and the shared
account is absent, the list contains two creation instructions for it.) -/
theorem transferToken_recipient_create_count (env : TokenEnv)
    (sender recipient mintAddr : Addr) (amount : ℚ) (instrs : List Instr)
    (h : (transferToken env sender recipient mintAddr amount).2 = Except.ok instrs) :
    (env.accountExists (Addr.ata mintAddr recipient) = true →
      countCreateFor (Addr.ata mintAddr recipient) instrs = 0) ∧
    (env.accountExists (Addr.ata mintAddr recipient) = false → sender ≠ recipient →
      countCreateFor (Addr.ata mintAddr recipient) instrs = 1) := by
  rw [transferToken] at h
  split at h
  · simp at h
  · rw [Except.ok.injEq] at h
    subst h
    constructor
    · intro hex
      by_cases hsr : sender = recipient
      · subst hsr
        simp [hex, countCreateFor, isCreateFor, List.countP_append, List.countP_cons]
      · have hne : Addr.ata mintAddr sender ≠ Addr.ata mintAddr recipient := by
          simp only [ne_eq, Addr.ata.injEq, not_and]
          intro hc
          exact hsr
        cases hb1 : env.accountExists (Addr.ata mintAddr sender) <;>
          simp [hex, hb1, hne, countCreateFor, isCreateFor, List.countP_append,
            List.countP_cons]
    · intro hex hsr
      have hne : Addr.ata mintAddr sender ≠ Addr.ata mintAddr recipient := by
        simp only [ne_eq, Addr.ata.injEq, not_and]
        intro hc
        exact hsr
      cases hb1 : env.accountExists (Addr.ata mintAddr sender) <;>
        simp [hex, hb1, hne, countCreateFor, isCreateFor, List.countP_append,
          List.countP_cons]

/-- Counterexample for claim C4: in a transfer from a wallet to itself with
the shared associated account absent, the existence query for the recipient's
associated account reports it absent, the build succeeds, and the built list
contains two creation instructions for that account, not exactly one. -/
theorem transferToken_self_transfer_double_create :
    envAllAbsent.accountExists (Addr.ata (Addr.mintAcct 0) (Addr.wallet 0)) = false ∧
    (transferToken envAllAbsent (Addr.wallet 0) (Addr.wallet 0) (Addr.mintAcct 0) 1).2 =
      Except.ok
        [Instr.createAssociatedTokenAccount (Addr.wallet 0)
           (Addr.ata (Addr.mintAcct 0) (Addr.wallet 0)) (Addr.wallet 0) (Addr.mintAcct 0),
         Instr.createAssociatedTokenAccount (Addr.wallet 0)
           (Addr.ata (Addr.mintAcct 0) (Addr.wallet 0)) (Addr.wallet 0) (Addr.mintAcct 0),
         Instr.transferChecked (Addr.ata (Addr.mintAcct 0) (Addr.wallet 0)) (Addr.mintAcct 0)
           (Addr.ata (Addr.mintAcct 0) (Addr.wallet 0)) (Addr.wallet 0) 1 0] ∧
    countCreateFor (Addr.ata (Addr.mintAcct 0) (Addr.wallet 0))
      (okInstrs (transferToken envAllAbsent (Addr.wallet 0) (Addr.wallet 0)
        (Addr.mintAcct 0) 1)) = 2 := by
  have hr : jsRound (1:ℚ) = 1 := by norm_num [jsRound]
  refine ⟨rfl, ?_, ?_⟩ <;>
    norm_num [transferToken, envAllAbsent, hr, okInstrs, countCreateFor, isCreateFor,
      List.countP_cons]

/-- Witness for claim C3: a concrete successful transfer build in which both
associated accounts are created; the transfer instruction is last, carries the
converted amount 300 and the on-chain decimal count 2, and everything before
it is an account creation. -/
theorem transferToken_creates_precede_transfer_witness :
    (okInstrs (transferToken envOkTransfer (Addr.wallet 0) (Addr.wallet 1)
        (Addr.mintAcct 0) 3)).getLast? =
      some (Instr.transferChecked (Addr.ata (Addr.mintAcct 0) (Addr.wallet 0))
        (Addr.mintAcct 0) (Addr.ata (Addr.mintAcct 0) (Addr.wallet 1)) (Addr.wallet 0)
        300 2) ∧
    allAtaCreate (okInstrs (transferToken envOkTransfer (Addr.wallet 0) (Addr.wallet 1)
      (Addr.mintAcct 0) 3)).dropLast = true := by
  have hr : jsRound (300:ℚ) = 300 := by norm_num [jsRound]
  have hok : (transferToken envOkTransfer (Addr.wallet 0) (Addr.wallet 1)
      (Addr.mintAcct 0) 3).2 =
      Except.ok (okInstrs (transferToken envOkTransfer (Addr.wallet 0) (Addr.wallet 1)
        (Addr.mintAcct 0) 3)) := by
    norm_num [transferToken, envOkTransfer, okInstrs, hr]
  have h := transferToken_creates_precede_transfer envOkTransfer (Addr.wallet 0)
    (Addr.wallet 1) (Addr.mintAcct 0) 3 _ hok
  have hd : envOkTransfer.mintDecimals (Addr.mintAcct 0) = 2 := rfl
  rw [hd] at h
  have hr2 : jsRound ((3:ℚ) * 10 ^ (2:ℕ)) = 300 := by norm_num [jsRound]
  rw [hr2] at h
  exact h

/-- Witness for claim C4: a concrete transfer between distinct wallets whose
recipient associated account is reported absent; the built list contains
exactly one creation instruction for it. -/
theorem transferToken_recipient_create_count_witness :
    envOkTransfer.accountExists (Addr.ata (Addr.mintAcct 0) (Addr.wallet 1)) = false ∧
    countCreateFor (Addr.ata (Addr.mintAcct 0) (Addr.wallet 1))
      (okInstrs (transferToken envOkTransfer (Addr.wallet 0) (Addr.wallet 1)
        (Addr.mintAcct 0) 3)) = 1 := by
  have hr : jsRound (300:ℚ) = 300 := by norm_num [jsRound]
  have hok : (transferToken envOkTransfer (Addr.wallet 0) (Addr.wallet 1)
      (Addr.mintAcct 0) 3).2 =
      Except.ok (okInstrs (transferToken envOkTransfer (Addr.wallet 0) (Addr.wallet 1)
        (Addr.mintAcct 0) 3)) := by
    norm_num [transferToken, envOkTransfer, okInstrs, hr]
  have h := transferToken_recipient_create_count envOkTransfer (Addr.wallet 0)
    (Addr.wallet 1) (Addr.mintAcct 0) 3 _ hok
  exact ⟨rfl, h.2 rfl (by decide)⟩

/-- Claim C5: whenever the source token balance reads as 0 smallest units and
the requested amount converts to 1 smallest unit, the token transfer fails
with the insufficient-balance error and the effect trace contains no
submission call. -/
theorem transferToken_zero_balance_fails (env : TokenEnv)
    (sender recipient mintAddr : Addr) (amount : ℚ)
    (hbal : env.tokenBalance (Addr.ata mintAddr sender) = Except.ok 0)
    (hamt : jsRound (amount * 10 ^ env.mintDecimals mintAddr) = 1) :
    (transferToken env sender recipient mintAddr amount).2 =
      Except.error TransferError.insufficientBalance ∧
    Effect.submit ∉ (transferToken env sender recipient mintAddr amount).1 := by
  rw [transferToken]
  simp only [hbal, hamt]
  rw [if_pos (by norm_num)]
  refine ⟨rfl, ?_⟩
  simp

/-- Witness for claim C5: with six mint decimals, a requested amount of
0.000001 whole tokens (one smallest unit) against a zero balance fails with
the insufficient-balance error and never submits. -/
theorem transferToken_zero_balance_fails_witness :
    (transferToken envZeroBal (Addr.wallet 0) (Addr.wallet 1) (Addr.mintAcct 0)
      (1/1000000)).2 = Except.error TransferError.insufficientBalance ∧
    Effect.submit ∉ (transferToken envZeroBal (Addr.wallet 0) (Addr.wallet 1)
      (Addr.mintAcct 0) (1/1000000)).1 := by
  exact transferToken_zero_balance_fails envZeroBal (Addr.wallet 0) (Addr.wallet 1)
    (Addr.mintAcct 0) (1/1000000) rfl (by norm_num [jsRound, envZeroBal])

/-- Claim C9: a failing source-balance lookup is treated exactly as a zero
balance, so whenever the requested smallest-unit amount is positive the token
transfer fails with the insufficient-balance error, not a network error, and
nothing is submitted. -/
theorem transferToken_lookup_failure_as_zero (env : TokenEnv)
    (sender recipient mintAddr : Addr) (amount : ℚ) (err : Unit)
    (hbal : env.tokenBalance (Addr.ata mintAddr sender) = Except.error err)
    (hpos : 0 < jsRound (amount * 10 ^ env.mintDecimals mintAddr)) :
    (transferToken env sender recipient mintAddr amount).2 =
      Except.error TransferError.insufficientBalance ∧
    Effect.submit ∉ (transferToken env sender recipient mintAddr amount).1 := by
  rw [transferToken]
  simp only [hbal]
  rw [if_pos hpos]
  refine ⟨rfl, ?_⟩
  simp

/-- Witness for claim C9: with six mint decimals and a failing balance
lookup, a requested amount of one whole token fails with the
insufficient-balance error and never submits. -/
theorem transferToken_lookup_failure_as_zero_witness :
    (transferToken envLookupFail (Addr.wallet 0) (Addr.wallet 1) (Addr.mintAcct 0)
      1).2 = Except.error TransferError.insufficientBalance ∧
    Effect.submit ∉ (transferToken envLookupFail (Addr.wallet 0) (Addr.wallet 1)
      (Addr.mintAcct 0) 1).1 := by
  exact transferToken_lookup_failure_as_zero envLookupFail (Addr.wallet 0) (Addr.wallet 1)
    (Addr.mintAcct 0) 1 () rfl (by norm_num [jsRound, envLookupFail])

/-- Claim C6: whenever the payer's current balance, in whole coins, is
strictly below the requested amount, the native-coin transfer fails with the
insufficient-balance error before submission and nothing is submitted. -/
theorem transferSOL_preflight_insufficient (env : SolEnv) (sender recipient : Addr)
    (amountSOL : ℚ) (h : (env.balance sender : ℚ) / 1000000000 < amountSOL) :
    (transferSOL env sender recipient amountSOL).2 =
      Except.error SolError.insufficientBalance ∧
    SolEffect.submit ∉ (transferSOL env sender recipient amountSOL).1 := by
  rw [transferSOL]
  rw [if_pos h]
  refine ⟨rfl, ?_⟩
  simp

/-- Witness for claim C6: a wallet with zero lamports requesting one whole
coin fails with the insufficient-balance error and never submits. -/
theorem transferSOL_preflight_insufficient_witness :
    (transferSOL envSolEmpty (Addr.wallet 0) (Addr.wallet 1) 1).2 =
      Except.error SolError.insufficientBalance ∧
    SolEffect.submit ∉ (transferSOL envSolEmpty (Addr.wallet 0) (Addr.wallet 1) 1).1 := by
  exact transferSOL_preflight_insufficient envSolEmpty (Addr.wallet 0) (Addr.wallet 1) 1
    (by norm_num [envSolEmpty])

/-- Claim C7 (amended): every native-coin transfer that passes the balance
pre-check builds a transaction consisting of the single transfer instruction
whose lamport amount is exactly the requested whole-unit amount times 10^9;
the code performs no separate conversion to an integer, so the lamport value
is an integer count exactly when the requested amount is a whole multiple of
one billionth. -/
theorem transferSOL_single_transfer_instruction (env : SolEnv) (sender recipient : Addr)
    (amountSOL : ℚ) (h : ¬ ((env.balance sender : ℚ) / 1000000000 < amountSOL)) :
    (transferSOL env sender recipient amountSOL).2 =
      Except.ok [Instr.systemTransfer sender recipient (amountSOL * 1000000000)] := by
  rw [transferSOL]
  rw [if_neg h]

/-- Witness for claim C7: a native transfer of 0.005 coin from a wallet with
10 coins yields the single transfer instruction with amount exactly 5000000
smallest units. -/
theorem transferSOL_single_transfer_instruction_witness :
    (transferSOL envSolRich (Addr.wallet 0) (Addr.wallet 1) (5/1000)).2 =
      Except.ok [Instr.systemTransfer (Addr.wallet 0) (Addr.wallet 1) 5000000] := by
  have h := transferSOL_single_transfer_instruction envSolRich (Addr.wallet 0)
    (Addr.wallet 1) (5/1000) (by norm_num [envSolRich])
  rw [h]
  norm_num

/-- Counterexample for claim C7: a native transfer of half a billionth of a
coin passes the pre-check yet builds a transfer instruction whose lamport
amount is the non-integer value one half, since the code converts with a bare
multiplication and no integer conversion. -/
theorem transferSOL_fractional_lamports :
    (transferSOL envSolRich (Addr.wallet 0) (Addr.wallet 1) (1/2000000000)).2 =
      Except.ok [Instr.systemTransfer (Addr.wallet 0) (Addr.wallet 1) (1/2)] ∧
    ((1:ℚ)/2).den ≠ 1 := by
  constructor
  · rw [transferSOL]
    rw [if_neg (by norm_num [envSolRich])]
    norm_num
  · norm_num

/-- Each lower-case hex character decodes to a value below 16 that encodes
back to the same character. -/
theorem hexDigit_char_roundtrip : ∀ c ∈ lowerHexChars,
    (hexDigitVal c).isSome = true ∧
    ((hexDigitVal c).getD 0) < 16 ∧
    hexDigitChar ((hexDigitVal c).getD 0) = c := by decide

/-- Decoding an even-length lower-case hex character list and re-encoding the
bytes reproduces the original list. -/
theorem decodePairs_encode : ∀ cs : List Char, (∀ c ∈ cs, isLowerHex c) →
    cs.length % 2 = 0 → ∀ bs, decodePairs (hexPairs cs) = some bs →
    hexEncodeBytes bs = cs
  | [] => by
      intro _ _ bs h
      simp [hexPairs, decodePairs] at h
      subst h
      rfl
  | [c] => by
      intro _ hlen bs _
      simp at hlen
  | c1 :: c2 :: rest => by
      intro hhex hlen bs h
      have hc1 : isLowerHex c1 := hhex c1 (by simp)
      have hc2 : isLowerHex c2 := hhex c2 (by simp)
      obtain ⟨hs1, hlt1, hch1⟩ := hexDigit_char_roundtrip c1 hc1
      obtain ⟨hs2, hlt2, hch2⟩ := hexDigit_char_roundtrip c2 hc2
      obtain ⟨v1, hv1⟩ := Option.isSome_iff_exists.mp hs1
      obtain ⟨v2, hv2⟩ := Option.isSome_iff_exists.mp hs2
      simp only [hv1, hv2, Option.getD_some] at hlt1 hlt2 hch1 hch2
      rw [show hexPairs (c1 :: c2 :: rest) = [c1, c2] :: hexPairs rest from rfl] at h
      simp only [decodePairs, parseHexByte, hv1, hv2, Option.bind_eq_bind,
        Option.some_bind] at h
      cases hrest : decodePairs (hexPairs rest) with
      | none => rw [hrest] at h; simp at h
      | some bs2 =>
          rw [hrest] at h
          simp only [Option.pure_def, Option.some_bind, Option.some.injEq] at h
          subst h
          have hdiv : (16 * v1 + v2) / 16 = v1 := by
            rw [Nat.mul_add_div (by norm_num), Nat.div_eq_of_lt hlt2, Nat.add_zero]
          have hmod : (16 * v1 + v2) % 16 = v2 := by
            rw [Nat.mul_add_mod, Nat.mod_eq_of_lt hlt2]
          have hrec : hexEncodeBytes bs2 = rest :=
            decodePairs_encode rest (fun c hc => hhex c (by simp [hc]))
              (by simp at hlen ⊢; omega) bs2 hrest
          rw [show hexEncodeBytes ((16 * v1 + v2) :: bs2) =
            hexDigitChar ((16 * v1 + v2) / 16) :: hexDigitChar ((16 * v1 + v2) % 16) ::
              hexEncodeBytes bs2 from rfl]
          rw [hdiv, hmod, hch1, hch2, hrec]

/-- Claim C8 (amended): for every even-length lower-case hex string that
decodes to a secret key the signature scheme accepts, the key loader is the
pure function given by hexDecode followed by fromSecretKey (so the public
half is determined by the input), and re-encoding the decoded bytes
reproduces the original string.  For strings containing upper-case hex
digits the decoder is case-insensitive but the encoder emits lower case, so
the round trip returns the lower-case form instead of the original. -/
theorem hexKey_roundtrip_lowercase (s : String) (hhex : ∀ c ∈ s.data, isLowerHex c)
    (hlen : s.data.length % 2 = 0) (bs : List ℕ) (hdec : hexDecode s = some bs)
    (_hkey : (fromSecretKey bs).isSome = true) :
    hexEncode bs = s := by
  have h := decodePairs_encode s.data hhex hlen bs hdec
  unfold hexEncode
  rw [h]

set_option maxRecDepth 40000 in
/-- Witness for claim C8: the 128-character lower-case hex key from the
source's test harness decodes to an accepted 64-byte secret key and
re-encodes to exactly the original string. -/
theorem hexKey_roundtrip_lowercase_witness :
    hexEncode ((hexDecode KEYHEX).getD []) = KEYHEX := by
  exact hexKey_roundtrip_lowercase KEYHEX (by decide) (by decide)
    ((hexDecode KEYHEX).getD []) (by decide) (by decide)

set_option maxRecDepth 40000 in
/-- Counterexample for claim C8: the same key with one digit written in upper
case is a valid even-length hex string of hex digits whose decoded 64-byte
key is accepted, yet re-encoding the decoded key yields the lower-case form,
not the original string. -/
theorem hexKey_roundtrip_uppercase_fails :
    (∀ c ∈ KEYHEXUP.data, hexDigitVal c ≠ none) ∧
    KEYHEXUP.data.length % 2 = 0 ∧
    (fromSecretKey ((hexDecode KEYHEXUP).getD [])).isSome = true ∧
    hexDecode KEYHEXUP = some ((hexDecode KEYHEXUP).getD []) ∧
    hexEncode ((hexDecode KEYHEXUP).getD []) ≠ KEYHEXUP := by
  refine ⟨by decide, by decide, by decide, by decide, by decide⟩
